import Mathlib

/-!
Shallow embedding of the ChatterBox TTS API server
(src/tts-server/server.py): audio normalization (convert_to_voice_format),
engine startup with backend fallback (startup_event), and the upload-voice,
generate and delete-voice request handlers together with their observable
effects (HTTP status and detail, engine invocation, temporary files,
resolved filesystem paths).
-/

/-- Compute backends tried by ChatterboxTTS.from_pretrained at startup
(server.py lines 86 and 92). -/
inductive Backend
  | cuda
  | cpu
deriving DecidableEq

/-- Audio arrays as returned by sf.read: a 1-D mono sample list, or a 2-D
array given as the list of frames, each frame holding the sample of every
channel at one time index (server.py line 58 branches on the shape
dimension). Samples are modelled as exact rationals. -/
inductive AudioData
  | mono (samples : List ℚ)
  | multi (frames : List (List ℚ))
deriving DecidableEq

/-- Embedding of np.mean(audio_data, axis=1): the per-time-index average of
the channel samples (server.py line 59). -/
def npMeanAxis1 (frames : List (List ℚ)) : List ℚ :=
  frames.map (fun f => f.sum / (f.length : ℚ))

/-- Embedding of np.max(np.abs(xs)) (server.py line 68): numpy raises
ValueError on a zero-size reduction, so the empty list is an error. -/
def npMaxAbs : List ℚ → Except String ℚ
  | [] => .error "zero-size array to reduction operation maximum which has no identity"
  | x :: xs => .ok (xs.foldl (fun m a => max m |a|) |x|)

/-- Embedding of num_samples = int(len(audio_data) * ratio) with
ratio = target_sample_rate / original_sr (server.py lines 63-64): the
floating-point arithmetic is modelled exactly over the rationals, and the
Python int() builtin truncates toward zero, which on these nonnegative
values is natural-number division. -/
def resampleCount (len tsr osr : ℕ) : ℕ := len * tsr / osr

/-- Stand-in for scipy.signal.resample (an external library call, server.py
line 65): it returns exactly num output samples. The band-limited
interpolation itself is an external capability outside this repository, so
nearest-index sample values stand in for it; only the output length is
relied on by the specification. -/
def signalResample (xs : List ℚ) (num : ℕ) : List ℚ :=
  (List.range num).map (fun i => xs.getD (i * xs.length / num) 0)

/-- Channel-reduction step of convert_to_voice_format (server.py lines
57-59): a 2-D array is averaged across channels, a 1-D array is untouched. -/
def toMono : AudioData → List ℚ
  | .mono s => s
  | .multi frames => npMeanAxis1 frames

/-- Embedding of convert_to_voice_format (server.py lines 50-72): channel
reduction, then resampling only when the rates differ AND scipy is present
(the scipyAvailable flag mirrors the module flag SCIPY_AVAILABLE of lines
25-30), then peak normalization scaling by 0.85 / peak when the peak is
positive. The error case is a numpy exception escaping the function. -/
def convert_to_voice_format (scipyAvailable : Bool) (audio : AudioData)
    (original_sr target_sample_rate : ℕ) : Except String (List ℚ) :=
  let audio1 := toMono audio
  let audio2 :=
    if original_sr ≠ target_sample_rate ∧ scipyAvailable = true then
      signalResample audio1 (resampleCount audio1.length target_sample_rate original_sr)
    else audio1
  match npMaxAbs audio2 with
  | .error e => .error e
  | .ok peak => .ok (if 0 < peak then audio2.map (fun s => s * (0.85 / peak)) else audio2)

/-- Embedding of the Python round builtin on an exactly represented value:
round half to even. -/
def pythonRound (q : ℚ) : ℤ :=
  if q - ⌊q⌋ < 1/2 then ⌊q⌋
  else if 1/2 < q - ⌊q⌋ then ⌊q⌋ + 1
  else if ⌊q⌋ % 2 = 0 then ⌊q⌋ else ⌊q⌋ + 1

/-- Accumulating splitter over the character list: cuts at every slash. -/
def splitSlashAux : List Char → List Char → List String
  | [], acc => [String.mk acc.reverse]
  | c :: cs, acc =>
      if c = '/' then String.mk acc.reverse :: splitSlashAux cs []
      else splitSlashAux cs (c :: acc)

/-- Splitting a relative path string on the slash, the way pathlib
decomposes a joined path such as voices/name.wav into segments. -/
def splitSlash (s : String) : List String := splitSlashAux s.data []

/-- POSIX resolution of relative path segments against the working
directory: empty and dot segments vanish, a dot-dot segment pops the last
real segment, and surplus dot-dot segments climb above the working
directory. -/
def resolveSegs (segs : List String) : List String :=
  segs.foldl
    (fun acc seg =>
      if seg = "" ∨ seg = "." then acc
      else if seg = ".." then
        if acc = [] ∨ acc.getLast? = some ".." then acc ++ [".."]
        else acc.dropLast
      else acc ++ [seg])
    []

/-- Path of the stored asset for a voice name: VOICES_DIR / (name ++ ".wav")
(server.py lines 46, 133, 181 and 239), resolved relative to the working
directory. No sanitization is applied to the name, mirroring the source. -/
def voicePath (voice_name : String) : List String :=
  resolveSegs ("voices" :: splitSlash (voice_name ++ ".wav"))

/-- Whether a resolved path denotes a file strictly inside the voices
directory. -/
def underVoicesDir : List String → Bool
  | "voices" :: _ :: _ => true
  | _ => false

deriving instance DecidableEq for Except

/-- Python exceptions observable inside the handlers: a FastAPI
HTTPException carrying status and detail, or any other exception carrying
its message. Both derive from Exception, so a blanket except clause catches
both. -/
inductive PyExc
  | http (status : ℕ) (detail : String)
  | generic (msg : String)
deriving DecidableEq

/-- Embedding of str(e): HTTPException prints as status colon detail (the
starlette dunder-str), a generic exception prints its message. -/
def pyExcStr : PyExc → String
  | .http s d => toString s ++ ": " ++ d
  | .generic m => m

/-- Inputs of one /generate request: the filesystem is the set of existing
resolved paths; engineFails and saveFails model failures of the external
model call (tts_model.generate) and of torchaudio save. -/
structure GenRequest where
  fs : List (List String)
  text : String
  voice_name : Option String
  engineFails : Bool
  saveFails : Bool
deriving DecidableEq

/-- Observable outcome of one /generate request (server.py lines 155-214):
HTTP status and detail, whether the synthesis engine was invoked, and
whether the output temporary file was created and removed by the handler. -/
structure GenResult where
  status : ℕ
  detail : String
  engineInvoked : Bool
  outputTempCreated : Bool
  outputTempRemoved : Bool
deriving DecidableEq

/-- Python truthiness of the optional voice_name form field (server.py line
180): None and the empty string are falsy. -/
def optStrTruthy : Option String → Bool
  | none => false
  | some s => if s = "" then false else true

/-- Engine invocation and output-file part of the generate try block
(server.py lines 186-211), reached after voice resolution: the engine is
invoked; on engine failure the exception escapes before the temp file
exists; on save failure the temp file was already created; on success the
temp file exists and the FileResponse is returned. The components are the
outcome, whether the engine was invoked, and whether the output temp file
was created. -/
def genAfterVoice (req : GenRequest) : Except PyExc Unit × Bool × Bool :=
  if req.engineFails = true then (.error (.generic "engine error"), true, false)
  else if req.saveFails = true then (.error (.generic "save error"), true, true)
  else (.ok (), true, true)

/-- The try block of generate_tts (server.py lines 177-211): when the voice
name is truthy it is resolved against the voices directory, raising the 404
HTTPException of line 183 when the file does not exist; otherwise synthesis
proceeds. -/
def genTryBody (req : GenRequest) : Except PyExc Unit × Bool × Bool :=
  if optStrTruthy req.voice_name = true then
    let v := req.voice_name.getD ""
    if voicePath v ∈ req.fs then genAfterVoice req
    else (.error (.http 404 ("Voice \x27" ++ v ++ "\x27 not found")), false, false)
  else genAfterVoice req

/-- Embedding of the /generate handler (server.py lines 155-214). The model
and empty-text checks of lines 171-175 precede the try block. The blanket
except Exception of line 213 wraps EVERY exception raised inside the try
block, including the 404 HTTPException of line 183, into a 500 whose detail
prepends the failed-to-generate prefix to str(e). The output temp file is
created with delete=False and the FileResponse passes background=None, so
the handler removes it on no path. -/
def generate_tts (tts_model : Option Backend) (req : GenRequest) : GenResult :=
  if tts_model = none then ⟨503, "TTS model not loaded", false, false, false⟩
  else if req.text = "" then ⟨400, "Text is required", false, false, false⟩
  else
    match genTryBody req with
    | (.error e, inv, tmp) =>
        ⟨500, "Failed to generate TTS: " ++ pyExcStr e, inv, tmp, false⟩
    | (.ok _, inv, tmp) => ⟨200, "", inv, tmp, false⟩

/-- Observable outcome of one /upload-voice request: HTTP status and
detail, whether the uploaded bytes were read, whether the temporary input
file was created and removed, and the resolved path written to the voices
directory, when any. -/
structure UploadResult where
  status : ℕ
  detail : String
  bytesRead : Bool
  tempInputCreated : Bool
  tempInputRemoved : Bool
  written : Option (List String)
deriving DecidableEq

/-- Embedding of the /upload-voice handler (server.py lines 108-152). The
503 model check of lines 118-119 precedes the temp file creation and the
read of the uploaded bytes. The finally block of lines 149-152 removes the
temporary input file on every path that created it. The converted audio is
written to VOICES_DIR / (voice_name ++ ".wav") with no sanitization of the
name. decodeOk models whether sf.read parses the upload; a failure inside
the try block becomes a 500 whose detail carries the source prefix
failed-to-process-voice plus str(e). -/
def upload_voice (tts_model : Option Backend) (scipyAvailable : Bool)
    (voice_name : String) (decodeOk : Bool) (audio : AudioData)
    (original_sr : ℕ) : UploadResult :=
  if tts_model = none then ⟨503, "TTS model not loaded", false, false, false, none⟩
  else if decodeOk = false then
    ⟨500, "Failed to process voice", true, true, true, none⟩
  else
    match convert_to_voice_format scipyAvailable audio original_sr 24000 with
    | .error _ => ⟨500, "Failed to process voice", true, true, true, none⟩
    | .ok _ => ⟨200, "", true, true, true, some (voicePath voice_name)⟩

/-- Observable outcome of one delete request: HTTP status and detail and
the resolved path unlinked, when any. -/
structure DeleteResult where
  status : ℕ
  detail : String
  unlinked : Option (List String)
deriving DecidableEq

/-- Embedding of the DELETE voices handler (server.py lines 236-248): the
path is built from the raw name, a missing file gives a 404 (raised outside
the try block, so it is not wrapped), otherwise the file is unlinked. -/
def delete_voice (fs : List (List String)) (voice_name : String) : DeleteResult :=
  let p := voicePath voice_name
  if p ∈ fs then ⟨200, "Voice \x27" ++ voice_name ++ "\x27 deleted", some p⟩
  else ⟨404, "Voice \x27" ++ voice_name ++ "\x27 not found", none⟩

/-- Embedding of startup_event (server.py lines 75-95): returns the final
tts_model value and the ordered list of load attempts. When the chatterbox module is
unavailable nothing is attempted; otherwise the cuda backend is tried
first and the cpu backend is tried exactly once, only after the cuda
attempt fails; when both fail tts_model stays None. cudaOk and cpuOk model
whether the external from_pretrained call succeeds on each backend. -/
def startup_event (chatterboxAvailable cudaOk cpuOk : Bool) :
    Option Backend × List Backend :=
  if chatterboxAvailable = false then (none, [])
  else if cudaOk = true then (some .cuda, [.cuda])
  else if cpuOk = true then (some .cpu, [.cuda, .cpu])
  else (none, [.cuda, .cpu])

/-- The running service after startup: tts_model is assigned once by
startup_event and only read by the handlers (the generate handler never
writes the global), so every request of the process lifetime observes the
same state and no reload ever happens. -/
def runService (chatterboxAvailable cudaOk cpuOk : Bool)
    (reqs : List GenRequest) : List GenResult :=
  reqs.map (generate_tts (startup_event chatterboxAvailable cudaOk cpuOk).1)

/-- Length of the resample stand-in is its requested sample count. -/
theorem signalResample_length (xs : List ℚ) (n : ℕ) :
    (signalResample xs n).length = n := by
  simp [signalResample]

/-- Channel averaging preserves the frame count. -/
theorem npMeanAxis1_length (frames : List (List ℚ)) :
    (npMeanAxis1 frames).length = frames.length := by
  simp [npMeanAxis1]

/-- A fold of max over absolute values never drops below its seed. -/
theorem le_foldl_max (l : List ℚ) (b : ℚ) :
    b ≤ l.foldl (fun m a => max m |a|) b := by
  induction l generalizing b with
  | nil => exact le_refl b
  | cons a l ih => exact le_trans (le_max_left b |a|) (ih (max b |a|))

/-- On a nonempty list, npMaxAbs succeeds and its value is nonnegative. -/
theorem npMaxAbs_cons_nonneg (x : ℚ) (xs : List ℚ) :
    ∃ p, npMaxAbs (x :: xs) = .ok p ∧ 0 ≤ p :=
  ⟨xs.foldl (fun m a => max m |a|) |x|, rfl,
    le_trans (abs_nonneg x) (le_foldl_max xs |x|)⟩

/-- Characterization of convert_to_voice_format when the input rate equals
the target rate and the peak is positive: the resampling branch is skipped
and the channel-reduced data is scaled by 0.85 over the peak. -/
theorem convert_same_rate_pos (scipy : Bool) (audio : AudioData) (sr : ℕ) (p : ℚ)
    (hp : npMaxAbs (toMono audio) = .ok p) (hpos : 0 < p) :
    convert_to_voice_format scipy audio sr sr
      = .ok ((toMono audio).map (fun s => s * (0.85 / p))) := by
  simp [convert_to_voice_format, hp, hpos]

/-- Characterization of convert_to_voice_format when the input rate equals
the target rate and the peak is not positive: the channel-reduced data is
returned unscaled. -/
theorem convert_same_rate_nonpos (scipy : Bool) (audio : AudioData) (sr : ℕ) (p : ℚ)
    (hp : npMaxAbs (toMono audio) = .ok p) (hpos : ¬ 0 < p) :
    convert_to_voice_format scipy audio sr sr = .ok (toMono audio) := by
  simp [convert_to_voice_format, hp, hpos]

/-- Characterization of convert_to_voice_format on mono input when the
rates differ, scipy is available and the post-resampling peak is positive:
the data is resampled to the truncated count and scaled. -/
theorem convert_mono_resample_pos (xs : List ℚ) (osr tsr : ℕ) (hne : osr ≠ tsr)
    (p : ℚ)
    (hp : npMaxAbs (signalResample xs (resampleCount xs.length tsr osr)) = .ok p)
    (hpos : 0 < p) :
    convert_to_voice_format true (.mono xs) osr tsr
      = .ok ((signalResample xs (resampleCount xs.length tsr osr)).map
              (fun s => s * (0.85 / p))) := by
  simp [convert_to_voice_format, toMono, hne, hp, hpos]

/-- Characterization of convert_to_voice_format on mono input when the
rates differ, scipy is available and the post-resampling peak is not
positive: the resampled data is returned unscaled. -/
theorem convert_mono_resample_nonpos (xs : List ℚ) (osr tsr : ℕ) (hne : osr ≠ tsr)
    (p : ℚ)
    (hp : npMaxAbs (signalResample xs (resampleCount xs.length tsr osr)) = .ok p)
    (hpos : ¬ 0 < p) :
    convert_to_voice_format true (.mono xs) osr tsr
      = .ok (signalResample xs (resampleCount xs.length tsr osr)) := by
  simp [convert_to_voice_format, toMono, hne, hp, hpos]

/-- Claim C1: with the model loaded, non-empty text, and a voice name that
has no stored asset, the handler never reaches the engine, but the 404
HTTPException raised inside the try block is swallowed by the blanket
except clause and re-raised as a 500: the request fails with the
internal-error status, not with NotFound. -/
theorem c1_missing_voice_yields_500_not_404 :
    generate_tts (some .cuda) ⟨[], "hello", some "ghost", false, false⟩ =
      ⟨500, "Failed to generate TTS: 404: Voice \x27ghost\x27 not found",
        false, false, false⟩ := by
  decide

/-- Claim C2: the voice name built from two parent-directory segments is
neither rejected nor sanitized: upload writes, and delete unlinks, the
resolved path one level above the working directory, which lies outside the
voices directory. -/
theorem c2_path_traversal_escapes_voices_dir :
    (upload_voice (some .cuda) true "../../etc" true (.mono [1]) 24000).written
        = some [".." , "etc.wav"]
    ∧ (upload_voice (some .cuda) true "../../etc" true (.mono [1]) 24000).status = 200
    ∧ underVoicesDir [".." , "etc.wav"] = false
    ∧ (delete_voice [[".." , "etc.wav"]] "../../etc").unlinked
        = some [".." , "etc.wav"] := by
  decide

/-- Claim C3: with the resampling capability absent and the input rate
48000 differing from the target 24000, convert_to_voice_format succeeds and
returns the un-resampled, merely peak-normalized samples instead of failing
with a CapabilityUnavailable error. -/
theorem c3_missing_scipy_silently_skips_resampling :
    convert_to_voice_format false (.mono [1]) 48000 24000 = .ok [0.85] := by
  simp [convert_to_voice_format, toMono, npMaxAbs]

/-- Claim C4: on a fully successful generate request the output temporary
file is created but never removed (delete=False plus background=None), so
output temp files accumulate; by contrast, the upload input temp file is
removed by the finally block. -/
theorem c4_generate_output_temp_never_removed :
    generate_tts (some .cuda)
        ⟨[voicePath "narrator"], "hello", some "narrator", false, false⟩
      = ⟨200, "", true, true, false⟩
    ∧ (upload_voice (some .cuda) true "narrator" true (.mono [1]) 24000).tempInputRemoved
        = true := by
  decide

/-- Claim C5: on the zero-length waveform, np.max of the empty array raises
ValueError instead of returning the samples unscaled, so normalizing an
empty input is an error; for a non-empty all-zero input the unscaled clause
does hold. -/
theorem c5_empty_waveform_raises :
    convert_to_voice_format true (.mono []) 24000 24000
        = .error "zero-size array to reduction operation maximum which has no identity"
    ∧ convert_to_voice_format true (.mono [0, 0]) 24000 24000 = .ok [0, 0] := by
  constructor
  · simp [convert_to_voice_format, toMono, npMaxAbs]
  · simp [convert_to_voice_format, toMono, npMaxAbs]

/-- Claim C6 counterexample: for a 3-sample input resampled from 48000 Hz
to 24000 Hz the code produces int(3 times one half) = 1 output sample,
while the claim formula round(3 times 24000 / 48000) gives 2 under Python
half-to-even rounding. -/
theorem c6_counterexample_truncation :
    (convert_to_voice_format true (.mono [1, 1, 1]) 48000 24000).map List.length
        = .ok 1
    ∧ pythonRound ((3 * 24000 : ℚ) / 48000) = 2
    ∧ (1 : ℕ) ≠ 2 := by
  have hlen : ([1, 1, 1] : List ℚ).length = 3 := rfl
  have hcnt : resampleCount 3 24000 48000 = 1 := by norm_num [resampleCount]
  have hrs : signalResample ([1, 1, 1] : List ℚ) 1 = [1] := by
    simp [signalResample, List.range_succ, List.getD]
  have hp : npMaxAbs (signalResample ([1, 1, 1] : List ℚ)
      (resampleCount ([1, 1, 1] : List ℚ).length 24000 48000)) = .ok 1 := by
    rw [hlen, hcnt, hrs]
    simp [npMaxAbs]
  refine ⟨?_, ?_, by decide⟩
  · rw [convert_mono_resample_pos ([1, 1, 1] : List ℚ) 48000 24000 (by norm_num) 1
        hp zero_lt_one]
    rw [hlen, hcnt, hrs]
    simp [Except.map]
  · have hq : ((3 * 24000 : ℚ) / 48000) = 3 / 2 := by norm_num
    have hfl : ⌊(3 / 2 : ℚ)⌋ = 1 := by
      rw [Int.floor_eq_iff]
      norm_num
    rw [hq]
    simp only [pythonRound, hfl]
    norm_num

/-- Claim C6 amended: when resampling is available and the input rate
differs from the target, the output sample count is exactly the truncation
of len times target over input (the Python int builtin, not round),
whenever that count is positive; in particular 48000 samples at 48000 Hz
resampled to 24000 Hz give exactly 24000 samples. -/
theorem c6_resample_count (xs : List ℚ) (osr tsr : ℕ)
    (hne : osr ≠ tsr) (hpos : 0 < xs.length * tsr / osr) :
    (convert_to_voice_format true (.mono xs) osr tsr).map List.length
      = .ok (xs.length * tsr / osr) := by
  obtain ⟨y, ys, hys⟩ :
      ∃ y ys, signalResample xs (resampleCount xs.length tsr osr) = y :: ys := by
    rcases h : signalResample xs (resampleCount xs.length tsr osr) with _ | ⟨y, ys⟩
    · exfalso
      have hl := signalResample_length xs (resampleCount xs.length tsr osr)
      rw [h] at hl
      simp only [List.length_nil] at hl
      have h0 : xs.length * tsr / osr = 0 := hl.symm
      rw [h0] at hpos
      exact lt_irrefl 0 hpos
    · exact ⟨y, ys, rfl⟩
  obtain ⟨p, hp, hp0⟩ := npMaxAbs_cons_nonneg y ys
  rw [← hys] at hp
  by_cases hpos2 : 0 < p
  · rw [convert_mono_resample_pos xs osr tsr hne p hp hpos2]
    simp only [Except.map, List.length_map, signalResample_length]
    rfl
  · rw [convert_mono_resample_nonpos xs osr tsr hne p hp hpos2]
    simp only [Except.map, signalResample_length]
    rfl

/-- Witness for the amended C6 theorem at a concrete input: four samples at
48000 Hz resampled to 24000 Hz give exactly two output samples. -/
theorem c6_resample_count_witness :
    (48000 ≠ 24000)
    ∧ 0 < ([1, 1, 1, 1] : List ℚ).length * 24000 / 48000
    ∧ (convert_to_voice_format true (.mono [1, 1, 1, 1]) 48000 24000).map List.length
        = .ok (([1, 1, 1, 1] : List ℚ).length * 24000 / 48000) :=
  ⟨by decide, by decide, c6_resample_count [1, 1, 1, 1] 48000 24000 (by decide) (by decide)⟩

/-- Claim C7: with the chatterbox import available, startup attempts the
cuda backend exactly once; the cpu fallback is attempted exactly once and
only after the cuda attempt fails; when both attempts fail the model stays
unloaded terminally and every subsequent generate request of the process
returns 503 model-not-loaded without invoking the engine and without any
reload. -/
theorem c7_lifecycle (cudaOk cpuOk : Bool) (reqs : List GenRequest) :
    ((startup_event true cudaOk cpuOk).2
        = if cudaOk = true then [Backend.cuda] else [Backend.cuda, Backend.cpu])
    ∧ (cudaOk = false → cpuOk = false →
        (startup_event true cudaOk cpuOk).1 = none
        ∧ ∀ res ∈ runService true cudaOk cpuOk reqs,
            res.status = 503 ∧ res.detail = "TTS model not loaded"
              ∧ res.engineInvoked = false) := by
  constructor
  · cases cudaOk <;> cases cpuOk <;> rfl
  · rintro rfl rfl
    refine ⟨rfl, ?_⟩
    intro res hres
    simp only [runService, List.mem_map] at hres
    obtain ⟨r, _, rfl⟩ := hres
    exact ⟨rfl, rfl, rfl⟩

/-- Witness for the C7 theorem with both load attempts failing and one
subsequent request: the model is none and the request gets a 503. -/
theorem c7_lifecycle_witness :
    (startup_event true false false).1 = none
    ∧ ∀ res ∈ runService true false false [⟨[], "hi", none, false, false⟩],
        res.status = 503 ∧ res.detail = "TTS model not loaded"
          ∧ res.engineInvoked = false :=
  (c7_lifecycle false false [⟨[], "hi", none, false, false⟩]).2 rfl rfl

/-- Claim C8 counterexample: for the one-frame stereo input with both
channel samples equal to 1 at the target rate, the per-index channel
average is 1, but normalize returns the single sample 0.85: the output
samples are the channel averages scaled by the peak factor, not the
averages themselves. -/
theorem c8_counterexample_scaling :
    convert_to_voice_format true (.multi [[1, 1]]) 24000 24000 = .ok [0.85]
    ∧ npMeanAxis1 [[1, 1]] = [1]
    ∧ (0.85 : ℚ) ≠ 1 := by
  have hmean : npMeanAxis1 [[1, 1]] = [1] := by
    norm_num [npMeanAxis1]
  have hmax : npMaxAbs (toMono (AudioData.multi [[1, 1]])) = .ok 1 := by
    simp [toMono, hmean, npMaxAbs]
  refine ⟨?_, hmean, by norm_num⟩
  rw [convert_same_rate_pos true (AudioData.multi [[1, 1]]) 24000 1 hmax zero_lt_one]
  rw [show toMono (AudioData.multi [[1, 1]]) = npMeanAxis1 [[1, 1]] from rfl, hmean]
  norm_num

/-- Claim C8 amended: for every non-empty multi-channel input at the target
rate, normalize produces a mono waveform with the same sample count whose
sample at each index is the per-index channel average multiplied by one
positive factor common to all indices. -/
theorem c8_mono_average (frames : List (List ℚ)) (sr : ℕ) (h : frames ≠ []) :
    ∃ out factor, convert_to_voice_format true (.multi frames) sr sr = .ok out
      ∧ out.length = frames.length
      ∧ 0 < factor
      ∧ out = (npMeanAxis1 frames).map (fun x => x * factor) := by
  obtain ⟨f, fr, rfl⟩ : ∃ f fr, frames = f :: fr := by
    cases frames with
    | nil => exact absurd rfl h
    | cons f fr => exact ⟨f, fr, rfl⟩
  obtain ⟨p, hp, hp0⟩ := npMaxAbs_cons_nonneg (f.sum / (f.length : ℚ)) (npMeanAxis1 fr)
  have hp2 : npMaxAbs (toMono (.multi (f :: fr))) = .ok p := hp
  by_cases hppos : 0 < p
  · rw [convert_same_rate_pos true (.multi (f :: fr)) sr p hp2 hppos]
    refine ⟨_, 0.85 / p, rfl, ?_, div_pos (by norm_num) hppos, rfl⟩
    simp [toMono, npMeanAxis1]
  · rw [convert_same_rate_nonpos true (.multi (f :: fr)) sr p hp2 hppos]
    refine ⟨_, 1, rfl, ?_, one_pos, ?_⟩
    · simp [toMono, npMeanAxis1]
    · simp [toMono, npMeanAxis1]

/-- Witness for the amended C8 theorem at a concrete stereo input with two
frames. -/
theorem c8_mono_average_witness :
    ([[1, 2], [3, 4]] : List (List ℚ)) ≠ []
    ∧ ∃ out factor,
        convert_to_voice_format true (.multi [[1, 2], [3, 4]]) 24000 24000 = .ok out
        ∧ out.length = ([[1, 2], [3, 4]] : List (List ℚ)).length
        ∧ 0 < factor
        ∧ out = (npMeanAxis1 [[1, 2], [3, 4]]).map (fun x => x * factor) :=
  ⟨by decide, c8_mono_average [[1, 2], [3, 4]] 24000 (by decide)⟩

/-- Claim C9: with the model loaded and empty text, generate returns 400
text-is-required before the try block: the engine is not invoked and no
temp file is created. The check precedes the try block, so the 400 is not
wrapped by the blanket except clause. -/
theorem c9_empty_text_validation (b : Backend) (fs : List (List String))
    (vn : Option String) (ef sf : Bool) :
    generate_tts (some b) ⟨fs, "", vn, ef, sf⟩
      = ⟨400, "Text is required", false, false, false⟩ := rfl

/-- Claim C10: with the model not loaded, upload-voice returns 503
model-not-loaded before the uploaded bytes are read, before any temporary
file is created, and before any file is written. -/
theorem c10_upload_requires_model (scipyAvail : Bool) (name : String)
    (decodeOk : Bool) (audio : AudioData) (sr : ℕ) :
    upload_voice none scipyAvail name decodeOk audio sr
      = ⟨503, "TTS model not loaded", false, false, false, none⟩ := rfl
